import Mathlib

/-!
# Verification of the http-rs HTTP/1.1 server core

A shallow embedding, in Lean 4, of the request parser, header collection,
response builder, rule matcher and per-connection state machine of the
http-rs server (files `src/header.rs`, `src/token.rs`, `src/request.rs`,
`src/response.rs`, `src/response_status_code.rs`, `src/request_method.rs`,
`src/http_version.rs`, `src/rules/rule.rs`, `src/server.rs`), together with
theorems checking the natural-language specification against the code.

Modeling conventions:
* Rust `String` values and byte buffers are both modeled as `List Nat`
  (bytes; a `String` is represented by its UTF-8 byte sequence).
* Machine integers are `Nat`; `u8`/`usize` overflow is made explicit with
  `% 2 ^ w` (release, i.e. wrapping, semantics) where it can occur.
* Fallible Rust code returns `Except Unit`; a Rust panic (an `unwrap` of a
  failing result) is modeled as the `none` case of an outer `Option`.
* `char::is_alphanumeric` is modeled on the ASCII range only; non-ASCII
  Unicode alphanumerics are outside the modeled fragment and are treated
  as invalid token characters.
-/

namespace HttpRs

/-- Bytes and byte strings: a Rust `&[u8]`, `Vec<u8>` or (via UTF-8) `String`
is a `List Nat` whose meaningful elements lie in `0..=255`. -/
abbrev ByteStr := List Nat

/-- Embeds an ASCII Lean string literal as its byte sequence (every literal
used in this development is plain ASCII, where UTF-8 agrees with the code
points). -/
def ascii (s : String) : ByteStr := s.data.map Char.toNat

/-- Rust `u8::to_ascii_lowercase`: map an ASCII uppercase letter to lowercase,
leave every other byte unchanged. -/
def to_ascii_lowercase (b : Nat) : Nat :=
  if 65 ≤ b ∧ b ≤ 90 then b + 32 else b

/-- Rust `str::eq_ignore_ascii_case` on the UTF-8 bytes: equal up to ASCII
case folding (same length, bytes equal after lowercasing). -/
def eq_ignore_ascii_case (a b : ByteStr) : Bool :=
  a.map to_ascii_lowercase == b.map to_ascii_lowercase

/-- ASCII decimal digit test (`u8::is_ascii_digit`). -/
def is_ascii_digit (b : Nat) : Bool := decide (48 ≤ b) && decide (b ≤ 57)

/-- Value of a sequence of ASCII decimal digit bytes. -/
def digits_to_nat (l : ByteStr) : Nat := l.foldl (fun a b => a * 10 + (b - 48)) 0

/-- Rust `str::parse::<usize>`: an optional leading `+` sign, then one or more
ASCII decimal digits; fails on anything else and on overflow of 64-bit
`usize`. -/
def parse_usize (s : ByteStr) : Option Nat :=
  let ds := match s with
    | 43 :: rest => rest
    | _ => s
  if !ds.isEmpty && ds.all is_ascii_digit && decide (digits_to_nat ds < 2 ^ 64) then
    some (digits_to_nat ds)
  else none

/-- UTF-8 continuation byte (`0x80..=0xBF`). -/
def is_utf8_cont (b : Nat) : Bool := decide (128 ≤ b) && decide (b ≤ 191)

/-- Validity of a byte sequence as UTF-8 (the check performed by Rust's
`std::str::from_utf8`): well-formed sequences only, rejecting overlong
encodings, surrogates and code points above U+10FFFF. -/
def is_utf8 : ByteStr → Bool
  | [] => true
  | b :: rest =>
    if b ≤ 127 then is_utf8 rest
    else
      match rest with
      | [] => false
      | c1 :: r1 =>
        if 194 ≤ b ∧ b ≤ 223 then is_utf8_cont c1 && is_utf8 r1
        else
          match r1 with
          | [] => false
          | c2 :: r2 =>
            if b = 224 then
              (decide (160 ≤ c1) && decide (c1 ≤ 191)) && is_utf8_cont c2 && is_utf8 r2
            else if (225 ≤ b ∧ b ≤ 236) ∨ (238 ≤ b ∧ b ≤ 239) then
              is_utf8_cont c1 && is_utf8_cont c2 && is_utf8 r2
            else if b = 237 then
              (decide (128 ≤ c1) && decide (c1 ≤ 159)) && is_utf8_cont c2 && is_utf8 r2
            else
              match r2 with
              | [] => false
              | c3 :: r3 =>
                if b = 240 then
                  (decide (144 ≤ c1) && decide (c1 ≤ 191)) && is_utf8_cont c2 &&
                    is_utf8_cont c3 && is_utf8 r3
                else if 241 ≤ b ∧ b ≤ 243 then
                  is_utf8_cont c1 && is_utf8_cont c2 && is_utf8_cont c3 && is_utf8 r3
                else if b = 244 then
                  (decide (128 ≤ c1) && decide (c1 ≤ 143)) && is_utf8_cont c2 &&
                    is_utf8_cont c3 && is_utf8 r3
                else false

/-- `String::from_vec` (src/utils.rs): decode a byte vector as UTF-8, falling
back to the empty string when the bytes are not valid UTF-8
(`try_from_vec(..).unwrap_or(String::new())`). In the byte-list model a
successfully decoded string is the byte list itself. -/
def string_from_vec (l : ByteStr) : ByteStr := if is_utf8 l then l else []

/-- `IteratorUtils::take_while_copy` (src/utils.rs): collect elements while
the predicate holds; like Rust's `Iterator::take_while`, the first
non-matching element is consumed from the iterator and discarded. Returns
the collected elements and the remaining iterator contents. -/
def take_while_copy (p : Nat → Bool) : ByteStr → ByteStr × ByteStr
  | [] => ([], [])
  | b :: rest =>
    if p b then
      let (v, r) := take_while_copy p rest
      (b :: v, r)
    else ([], rest)

/-- Loop body of `take_until_crlf` (src/request.rs): accumulate bytes until a
LF (10); at the LF, succeed exactly when the previously accumulated byte is a
CR (13) (`values.last().unwrap_or(&0) == b'\r'`), dropping that CR; reaching
the end of input without LF is an error. Returns the line (without CRLF) and
the bytes after the LF. -/
def take_until_crlf_aux (values : ByteStr) : ByteStr → Option (ByteStr × ByteStr)
  | [] => none
  | b :: rest =>
    if b = 10 then
      if values.getLast?.getD 0 = 13 then some (values.dropLast, rest) else none
    else take_until_crlf_aux (values ++ [b]) rest

/-- `take_until_crlf` (src/request.rs). -/
def take_until_crlf (l : ByteStr) : Option (ByteStr × ByteStr) :=
  take_until_crlf_aux [] l

/-- Modelled from the spec: `skip_whitespace` is imported by the request
parser from `crate::utils`, but its definition is not among the provided
sources (src/utils.rs holds only the string and iterator helpers). The spec
says "Leading whitespace after the colon is consumed" (optional whitespace =
spaces and horizontal tabs), so this drops leading space (32) and tab (9)
bytes. -/
def skip_whitespace (l : ByteStr) : ByteStr :=
  l.dropWhile (fun b => b == 32 || b == 9)

/-- `TOKEN_SPECIAL_CHARS` (src/token.rs): `! # # % & ' * + - . ^ _ ` | ~`
(the source lists `#` twice). -/
def TOKEN_SPECIAL_CHARS : List Nat :=
  [33, 35, 35, 37, 38, 39, 42, 43, 45, 46, 94, 95, 96, 124, 126]

/-- ASCII fragment of Rust `char::is_alphanumeric` (see module docstring). -/
def is_alphanumeric (b : Nat) : Bool :=
  is_ascii_digit b || (decide (65 ≤ b) && decide (b ≤ 90)) ||
    (decide (97 ≤ b) && decide (b ≤ 122))

/-- `is_valid_token` (src/token.rs): every character is a token special
character or alphanumeric. -/
def is_valid_token (value : ByteStr) : Bool :=
  value.all (fun c => TOKEN_SPECIAL_CHARS.contains c || is_alphanumeric c)

/-- `HEADERS_WITH_NUMBER_VALUES` (src/header.rs): the exact, case-sensitive
name `Content-Length`. -/
def HEADERS_WITH_NUMBER_VALUES : List ByteStr := [ascii "Content-Length"]

/-- `is_header_valid` (src/header.rs): the name must be a valid token, and if
the name is (case-sensitively) listed in `HEADERS_WITH_NUMBER_VALUES`, the
value must parse as a `usize`. -/
def is_header_valid (header_name header_value : ByteStr) : Bool :=
  if !is_valid_token header_name then false
  else if HEADERS_WITH_NUMBER_VALUES.contains header_name then
    (parse_usize header_value).isSome
  else true

/-- `Headers` (src/header.rs): an ordered list of (name, value) pairs. -/
structure Headers where
  inner : List (ByteStr × ByteStr)
deriving DecidableEq

/-- `Headers::new`. -/
def Headers.new : Headers := ⟨[]⟩

/-- Loop of `Headers::has_inner` (src/header.rs): index of the first entry
whose name matches case-insensitively and whose value matches
case-insensitively when a value is given (`header_value.is_none() ||
header_value.unwrap().eq_ignore_ascii_case(value)`). -/
def has_inner_aux (header_name : ByteStr) (header_value : Option ByteStr) :
    List (ByteStr × ByteStr) → Nat → Option Nat
  | [], _ => none
  | (name, value) :: rest, index =>
    if eq_ignore_ascii_case header_name name &&
        (header_value.isNone || eq_ignore_ascii_case (header_value.getD []) value) then
      some index
    else has_inner_aux header_name header_value rest (index + 1)

/-- `Headers::has_inner`. -/
def Headers.has_inner (h : Headers) (header_name : ByteStr)
    (header_value : Option ByteStr) : Option Nat :=
  has_inner_aux header_name header_value h.inner 0

/-- `Headers::add` (src/header.rs): when `has_inner(name, Some(value))` finds
an index, overwrite that entry's value (`self.inner[index].1 = value`);
otherwise push the (name, value) pair at the end. -/
def Headers.add (h : Headers) (header_name header_value : ByteStr) : Headers :=
  match h.has_inner header_name (some header_value) with
  | some index => ⟨h.inner.set index ((h.inner.getD index ([], [])).1, header_value)⟩
  | none => ⟨h.inner ++ [(header_name, header_value)]⟩

/-- `Headers::has`. -/
def Headers.has (h : Headers) (header_name : ByteStr)
    (header_value : Option ByteStr) : Bool :=
  (h.has_inner header_name header_value).isSome

/-- `Headers::get` (src/header.rs): value of the first case-insensitive name
match. -/
def Headers.get (h : Headers) (header_name : ByteStr) : Option ByteStr :=
  (h.has_inner header_name none).map (fun index => (h.inner.getD index ([], [])).2)

/-- `RequestMethod` (src/request_method.rs). -/
inductive RequestMethod where
  | get
  | head
  | options
  | post
  | put
  | patch
  | delete
deriving DecidableEq

/-- `RequestMethod::from_str` (src/request_method.rs). -/
def RequestMethod.from_str (value : ByteStr) : Option RequestMethod :=
  if value == ascii "GET" then some .get
  else if value == ascii "HEAD" then some .head
  else if value == ascii "OPTIONS" then some .options
  else if value == ascii "POST" then some .post
  else if value == ascii "PUT" then some .put
  else if value == ascii "PATCH" then some .patch
  else if value == ascii "DELETE" then some .delete
  else none

/-- `HttpVersion` (src/http_version.rs). -/
inductive HttpVersion where
  | http0_9
  | http1_0
  | http1_1
  | http2
deriving DecidableEq

/-- `HttpVersion::from_str` (src/http_version.rs). -/
def HttpVersion.from_str (value : ByteStr) : Option HttpVersion :=
  if value == ascii "HTTP/0.9" then some .http0_9
  else if value == ascii "HTTP/1.0" then some .http1_0
  else if value == ascii "HTTP/1.1" then some .http1_1
  else if value == ascii "HTTP/2" then some .http2
  else none

/-- `RequestBodyType` (src/request.rs). -/
inductive RequestBodyType where
  | none_
  | contentLength
  | transferEncodingChunked
deriving DecidableEq

/-- `Request` (src/request.rs). -/
structure Request where
  method : RequestMethod
  url : ByteStr
  version : HttpVersion
  headers : Headers
  body : ByteStr
deriving DecidableEq

/-- `Request::has_header`. -/
def Request.has_header (r : Request) (header_name : ByteStr)
    (header_value : Option ByteStr) : Bool :=
  r.headers.has header_name header_value

/-- `Request::content_length` (src/request.rs):
`headers.get("Content-Length").map(|v| v.parse::<usize>().unwrap())`.
The result is `none` when the `unwrap` panics (a present header whose value
does not parse), and `some v` with the Rust return value `v` otherwise. -/
def Request.content_length (r : Request) : Option (Option Nat) :=
  match r.headers.get (ascii "Content-Length") with
  | none => some none
  | some value =>
    match parse_usize value with
    | some n => some (some n)
    | none => none

/-- `Request::body_type` (src/request.rs); `none` when the inner
`content_length` call panics. -/
def Request.body_type (r : Request) : Option RequestBodyType :=
  match r.content_length with
  | none => none
  | some (some _) => some .contentLength
  | some none =>
    if r.has_header (ascii "Transfer-Encoding") (some (ascii "chunked")) then
      some .transferEncodingChunked
    else
      some .none_

/-- `parse_request_line` (src/request.rs): method up to the first space, url
up to the next space, version up to CRLF; accepted only when the method and
version parse, the url is non-empty and the version is exactly HTTP/1.1.
`none` models the panics of `from_utf8(..).unwrap()` on non-UTF-8 method or
version bytes; `some (.error ())` is the function's `Err` return. On success
the remaining (unconsumed) bytes are returned alongside. -/
def parse_request_line (l : ByteStr) :
    Option (Except Unit ((RequestMethod × ByteStr × HttpVersion) × ByteStr)) :=
  let (method_bytes, r1) := take_while_copy (fun b => !(b == 32)) l
  if !is_utf8 method_bytes then none
  else
    let method := RequestMethod.from_str method_bytes
    let (url_bytes, r2) := take_while_copy (fun b => !(b == 32)) r1
    let url := string_from_vec url_bytes
    match take_until_crlf r2 with
    | none => some (.error ())
    | some (version_bytes, r3) =>
      if !is_utf8 version_bytes then none
      else
        match method, HttpVersion.from_str version_bytes with
        | some m, some v =>
          if !url.isEmpty ∧ v = .http1_1 then some (.ok ((m, url, v), r3))
          else some (.error ())
        | _, _ => some (.error ())

/-- Loop of `parse_headers` (src/request.rs), with explicit fuel (each
iteration strictly consumes input, so `l.length + 1` fuel never runs out; the
fuel-exhaustion case returns an error). A line starting with CR must be
followed by LF and ends the header section; otherwise the name is read up to
the colon (which is consumed), whitespace is skipped, the value is read up to
CRLF, the header is validated with `is_header_valid` and added. -/
def parse_headers_aux : Nat → Headers → ByteStr → Except Unit (Headers × ByteStr)
  | 0, _, _ => .error ()
  | fuel + 1, headers, l =>
    if (l.headD 0) = 13 then
      match l.drop 1 with
      | 10 :: rest => .ok (headers, rest)
      | _ => .error ()
    else
      let (header, r1) := take_while_copy (fun b => !(b == 58)) l
      let r2 := skip_whitespace r1
      match take_until_crlf r2 with
      | none => .error ()
      | some (header_value, r3) =>
        let header_name := string_from_vec header
        let header_value := string_from_vec header_value
        if !is_header_valid header_name header_value then .error ()
        else parse_headers_aux fuel (headers.add header_name header_value) r3

/-- `parse_headers` (src/request.rs). -/
def parse_headers (l : ByteStr) : Except Unit (Headers × ByteStr) :=
  parse_headers_aux (l.length + 1) Headers.new l

/-- Loop of `parse_chunked_body` (src/request.rs), with explicit fuel (each
iteration strictly consumes input). Empty input returns the bytes parsed so
far with complete = false. Otherwise: chunk size line up to CRLF, decoded as
UTF-8 (via `?`) and parsed with `str::parse::<usize>`; input ending right
after the size line is an error; the chunk payload is read up to the next
CRLF and must have exactly the declared length; a zero-sized chunk finishes
with complete = true. -/
def parse_chunked_body_aux : Nat → ByteStr → ByteStr → Except Unit (ByteStr × Bool)
  | 0, _, _ => .error ()
  | fuel + 1, parsed, l =>
    if l.isEmpty then .ok (parsed, false)
    else
      match take_until_crlf l with
      | none => .error ()
      | some (chunk_len_bytes, r1) =>
        if !is_utf8 chunk_len_bytes then .error ()
        else
          match parse_usize chunk_len_bytes with
          | none => .error ()
          | some chunk_len =>
            if r1.isEmpty then .error ()
            else
              match take_until_crlf r1 with
              | none => .error ()
              | some (chunk_bytes, r2) =>
                if !(chunk_bytes.length == chunk_len) then .error ()
                else if chunk_len == 0 then .ok (parsed, true)
                else parse_chunked_body_aux fuel (parsed ++ chunk_bytes) r2

/-- `parse_chunked_body` (src/request.rs). -/
def parse_chunked_body (body : ByteStr) : Except Unit (ByteStr × Bool) :=
  parse_chunked_body_aux (body.length + 1) [] body

/-- The body-framing block of `parse_request` (src/request.rs): the `match
request.body_type()` statement, acting on the parsed request (empty body so
far) and the bytes left after the header terminator. For a Content-Length
body all remaining bytes become the body and completeness is
`body.len() == content_length().unwrap()` (`none` models that unwrap's panic
and the panic inside `body_type`); for a chunked body `parse_chunked_body`
decides; otherwise the request is complete. -/
def parse_request_body (request : Request) (rest2 : ByteStr) :
    Option (Except Unit (Request × Bool)) :=
  match request.body_type with
  | none => none
  | some .contentLength =>
    let request := { request with body := rest2 }
    match request.content_length with
    | some (some length) => some (.ok (request, request.body.length == length))
    | _ => none
  | some .transferEncodingChunked =>
    match parse_chunked_body rest2 with
    | .error _ => some (.error ())
    | .ok (body, is_complete) => some (.ok ({ request with body }, is_complete))
  | some .none_ => some (.ok (request, true))

/-- `parse_request` (src/request.rs): request line, then headers, then the
body framing (`parse_request_body`). `none` models a panic (inside the body
framing, or in the request-line `from_utf8` unwraps). -/
def parse_request (bytes : ByteStr) : Option (Except Unit (Request × Bool)) :=
  match parse_request_line bytes with
  | none => none
  | some (.error _) => some (.error ())
  | some (.ok ((method, url, version), rest1)) =>
    match parse_headers rest1 with
    | .error _ => some (.error ())
    | .ok (headers, rest2) =>
      parse_request_body { method, url, version, headers, body := [] } rest2

/-- `ResponseStatusCode` (src/response_status_code.rs). -/
inductive ResponseStatusCode where
  | continue_
  | switchingProtocols
  | ok
  | created
  | accepted
  | noContent
  | movedPermanently
  | found
  | seeOther
  | notModified
  | temporaryRedirect
  | permanentRedirect
  | badRequest
  | unauthorized
  | forbidden
  | notFound
  | methodNotAllowed
  | requestTimeout
  | imATeapot
  | tooManyRequests
  | internalServerError
  | notImplemented
  | badGateway
  | serviceUnavailable
  | gatewayTimeout
  | httpVersionNotSupported
deriving DecidableEq

/-- The discriminant values of `ResponseStatusCode` (`*self as u16`). -/
def ResponseStatusCode.as_u16 : ResponseStatusCode → Nat
  | .continue_ => 100
  | .switchingProtocols => 101
  | .ok => 200
  | .created => 201
  | .accepted => 202
  | .noContent => 204
  | .movedPermanently => 301
  | .found => 302
  | .seeOther => 303
  | .notModified => 304
  | .temporaryRedirect => 307
  | .permanentRedirect => 308
  | .badRequest => 400
  | .unauthorized => 401
  | .forbidden => 403
  | .notFound => 404
  | .methodNotAllowed => 405
  | .requestTimeout => 408
  | .imATeapot => 418
  | .tooManyRequests => 429
  | .internalServerError => 500
  | .notImplemented => 501
  | .badGateway => 502
  | .serviceUnavailable => 503
  | .gatewayTimeout => 504
  | .httpVersionNotSupported => 505

/-- The reason phrase of `impl Display for ResponseStatusCode`
(src/response_status_code.rs); the apostrophe in the teapot phrase is byte
39. -/
def ResponseStatusCode.reason : ResponseStatusCode → ByteStr
  | .continue_ => ascii "Continue"
  | .switchingProtocols => ascii "Switching Protocols"
  | .ok => ascii "OK"
  | .created => ascii "Created"
  | .accepted => ascii "Accepted"
  | .noContent => ascii "No Content"
  | .movedPermanently => ascii "Moved Permanently"
  | .found => ascii "Found"
  | .seeOther => ascii "See Other"
  | .notModified => ascii "Not Modified"
  | .temporaryRedirect => ascii "Temporary Redirect"
  | .permanentRedirect => ascii "Permanent Redirect"
  | .badRequest => ascii "Bad Request"
  | .unauthorized => ascii "Unauthorized"
  | .forbidden => ascii "Forbidden"
  | .notFound => ascii "Not Found"
  | .methodNotAllowed => ascii "Method Not Allowed"
  | .requestTimeout => ascii "Request Timeout"
  | .imATeapot => ascii "I" ++ [39] ++ ascii "m a teapot"
  | .tooManyRequests => ascii "Too Many Requests"
  | .internalServerError => ascii "Internal Server Error"
  | .notImplemented => ascii "Not Implemented"
  | .badGateway => ascii "Bad Gateway"
  | .serviceUnavailable => ascii "Service Unavailable"
  | .gatewayTimeout => ascii "Gateway Timeout"
  | .httpVersionNotSupported => ascii "Http Version Not Supported"

/-- `usize::to_string`: decimal digits of a natural number. -/
def nat_to_string (n : Nat) : ByteStr := (Nat.toDigits 10 n).map Char.toNat

/-- `HashMap::insert` on the association-list model of
`HashMap<String, String>`: replace the value of an existing (case-sensitive)
key, otherwise add the pair. Only `insert`, `get` and `contains_key` are
exercised by the embedded code, and on those operations the association list
agrees with the Rust hash map (iteration order, the sole difference, is
observed by no claim). -/
def hash_map_insert (m : List (ByteStr × ByteStr)) (k v : ByteStr) :
    List (ByteStr × ByteStr) :=
  if m.any (fun p => p.1 == k) then
    m.map (fun p => if p.1 == k then (k, v) else p)
  else m ++ [(k, v)]

/-- `HashMap::get` on the association-list model. -/
def hash_map_get (m : List (ByteStr × ByteStr)) (k : ByteStr) : Option ByteStr :=
  (m.find? (fun p => p.1 == k)).map (fun p => p.2)

/-- `HashMap::contains_key` on the association-list model. -/
def hash_map_contains_key (m : List (ByteStr × ByteStr)) (k : ByteStr) : Bool :=
  m.any (fun p => p.1 == k)

/-- `Response` (src/response.rs); `headers` is the association-list model of
`HashMap<String, String>`. -/
structure Response where
  version : HttpVersion
  status_code : ResponseStatusCode
  headers : List (ByteStr × ByteStr)
  body : ByteStr
deriving DecidableEq

/-- `Response::set_header` (src/response.rs): `headers.insert(name, value)`. -/
def Response.set_header (r : Response) (header_name header_value : ByteStr) : Response :=
  { r with headers := hash_map_insert r.headers header_name header_value }

/-- `Response::set_status_code`. -/
def Response.set_status_code (r : Response) (status_code : ResponseStatusCode) : Response :=
  { r with status_code }

/-- `Response::set_body`. -/
def Response.set_body (r : Response) (body : ByteStr) : Response :=
  { r with body }

/-- `ResponseBuilder` (src/response.rs). -/
structure ResponseBuilder where
  response : Response
deriving DecidableEq

/-- `ResponseBuilder::new`: HTTP/1.1, status 200 OK, no headers, empty
body. -/
def ResponseBuilder.new : ResponseBuilder :=
  ⟨{ version := .http1_1, status_code := .ok, headers := [], body := [] }⟩

/-- `ResponseBuilder::status_code`. -/
def ResponseBuilder.status_code (b : ResponseBuilder)
    (status_code : ResponseStatusCode) : ResponseBuilder :=
  ⟨{ b.response with status_code }⟩

/-- `ResponseBuilder::header`: `headers.insert(name, value)`. -/
def ResponseBuilder.header (b : ResponseBuilder) (header_name header_value : ByteStr) :
    ResponseBuilder :=
  ⟨{ b.response with headers := hash_map_insert b.response.headers header_name header_value }⟩

/-- `ResponseBuilder::body`. -/
def ResponseBuilder.body (b : ResponseBuilder) (body : ByteStr) : ResponseBuilder :=
  ⟨{ b.response with body }⟩

/-- `ResponseBuilder::text_body` (the UTF-8 bytes of the given string). -/
def ResponseBuilder.text_body (b : ResponseBuilder) (body : ByteStr) : ResponseBuilder :=
  ⟨{ b.response with body }⟩

/-- `ResponseBuilder::get` (src/response.rs): when the body is non-empty and
no `Content-Length` key is present, add `Content-Length` equal to the body
length; otherwise return the response unchanged. -/
def ResponseBuilder.get (b : ResponseBuilder) : Response :=
  if !b.response.body.isEmpty &&
      !(hash_map_contains_key b.response.headers (ascii "Content-Length")) then
    (b.header (ascii "Content-Length") (nat_to_string b.response.body.length)).response
  else b.response

/-- Rust `str::contains(pat)` at the byte level: some position of `s` starts
an occurrence of `pat` (the empty pattern matches at position 0 of any
string). -/
def str_contains (s pat : ByteStr) : Bool :=
  (List.range (s.length + 1)).any (fun i => pat.isPrefixOf (s.drop i))

/-- `Rule` (src/rules/rule.rs). Of the source fields (`pattern`, `actions`,
`statements`) only `pattern` is consulted by `Rule::matches`, the operation
the claims concern; the rule body, executed by the DSL interpreter, is not
part of this embedding. -/
structure Rule where
  pattern : ByteStr
deriving DecidableEq

/-- `Rule::matches` (src/rules/rule.rs):
`!url.matches(&self.pattern).collect::<Vec<&str>>().is_empty()`. The
collected match list of Rust's `str::matches` is non-empty exactly when at
least one occurrence of the pattern exists in `url` (for the empty pattern
the matcher yields a match at position 0 of every string), so the emptiness
test is embedded as the occurrence test `str_contains`. -/
def Rule.matches (rule : Rule) (url : ByteStr) : Bool :=
  str_contains url rule.pattern

/-- `error_response` (src/server.rs): status from the argument; when the
request exists and its `Accept` header value contains `text/html`, `text/*`
or `*/*`, set `Content-Type: text/html; charset=utf-8` and the minimal HTML
body; finalize with `ResponseBuilder::get`. -/
def error_html_body (status_code : ResponseStatusCode) : ByteStr :=
  ascii "<html><body><h1 style=" ++ [39] ++ ascii "text-align: center" ++ [39] ++
    ascii ">" ++ nat_to_string status_code.as_u16 ++ ascii " " ++
    status_code.reason ++ ascii "</h1></body></html>"

/-- `error_response` (src/server.rs). -/
def error_response (request : Option Request) (status_code : ResponseStatusCode) :
    Response :=
  let response_builder := ResponseBuilder.new.status_code status_code
  let accepts_html : Bool :=
    match request with
    | some request =>
      match request.headers.get (ascii "Accept") with
      | some v =>
        str_contains v (ascii "text/html") || str_contains v (ascii "text/*") ||
          str_contains v (ascii "*/*")
      | none => false
    | none => false
  let response_builder :=
    if accepts_html then
      (response_builder.header (ascii "Content-Type")
        (ascii "text/html; charset=utf-8")).text_body (error_html_body status_code)
    else response_builder
  response_builder.get

/-- `std::io::ErrorKind`, restricted to the variants the connection state
machine distinguishes; `other` stands for every remaining kind. -/
inductive IoErrorKind where
  | connectionReset
  | connectionAborted
  | timedOut
  | other
deriving DecidableEq

/-- `RuleEvaluationResult` as used by `apply_rules` in src/server.rs: the
evaluated rule returns the (possibly mutated) response and whether the rule
chain continues. -/
inductive RuleEvaluationResult where
  | continue_ (response : Response)
  | finish (response : Response)
deriving DecidableEq

/-- `apply_rules` (src/server.rs): try each rule in order; skip rules whose
pattern does not match the request url; a `Continue` result feeds the next
rule, a `Finish` result returns immediately. `Rule::evaluate` runs the rule
DSL interpreter; it enters this embedding as the oracle `eval` (for an empty
rule list `apply_rules` is independent of it). -/
def apply_rules (eval : Rule → Request → Response → RuleEvaluationResult) :
    List Rule → Request → Response → Response
  | [], _, response => response
  | rule :: rest, request, response =>
    if !(rule.matches request.url) then apply_rules eval rest request response
    else
      match eval rule request response with
      | .continue_ r => apply_rules eval rest request r
      | .finish r => r

/-- `HandleConnectionState` (src/server.rs). -/
inductive HandleConnectionState where
  | new
  | read (current_request : Option Request)
  | sendResponse (request : Option Request) (response : Response)
  | clientError (request : Option Request) (status_code : ResponseStatusCode)
  | close
  | error (kind : IoErrorKind)
deriving DecidableEq

/-- The counters of `HandleConnectionStateMachine` (src/server.rs). The
`server` and `connection` references are not data: their effects enter the
transition functions as oracle arguments (`prepare_response`,
`serve_content`, `eval`/`rules`, `read_result`, `write_result`).
`max_requests` and `served_requests_count` are `u8` values (`< 256`);
arithmetic on them is wrapped mod 256 (release semantics). -/
structure HandleConnectionStateMachine where
  persistent : Bool
  max_requests : Nat
  served_requests_count : Nat
deriving DecidableEq

/-- `HandleConnectionStateMachine::read` (src/server.rs), parameterized by
the outcome `read_result` of `self.connection.read(read_strategy)` and by the
dispatcher oracles (`prepare_response` = `self.server.prepare_response`,
`serve_content` = `self.server.serve_content`). The strategy computation that
precedes the transport read can panic — `body_type` panics on an unparseable
`Content-Length`, and the `RequestBodyType::None` arm is `unreachable!()` —
and those panics are modeled as `none` (the `usize` subtraction
`content_length - body.len()` wraps under release semantics and its value is
only handed to the transport, so it is not modeled further). -/
def HandleConnectionStateMachine.read
    (prepare_response serve_content : Request → Response)
    (read_result : Except IoErrorKind ByteStr)
    (current_request : Option Request) : Option HandleConnectionState :=
  let strategy_panics : Bool :=
    match current_request with
    | some request =>
      match request.body_type with
      | none => true
      | some .none_ => true
      | some _ => false
    | none => false
  if strategy_panics then none
  else
    match read_result with
    | .error kind =>
      match kind with
      | .connectionReset => some .close
      | .connectionAborted => some .close
      | .timedOut => some (.clientError none .requestTimeout)
      | .other => some (.error .other)
    | .ok bytes =>
      if bytes.isEmpty && current_request.isSome then
        some (.clientError current_request .badRequest)
      else if bytes.isEmpty then
        some .close
      else
        match current_request with
        | none =>
          match parse_request bytes with
          | none => none
          | some (.error _) => some (.clientError none .badRequest)
          | some (.ok (request, is_request_complete)) =>
            match request.body_type with
            | none => none
            | some body_type =>
              match body_type, request.content_length with
              | .contentLength, none => none
              | .contentLength, some cl =>
                let has_body :=
                  match cl with
                  | some length => !(request.body.length == length || length == 0)
                  | none => false
                if !has_body then
                  some (.sendResponse (some request) (prepare_response request))
                else
                  some (.read (some request))
              | .transferEncodingChunked, _ =>
                if !(!is_request_complete) then
                  some (.sendResponse (some request) (prepare_response request))
                else
                  some (.read (some request))
              | .none_, _ =>
                some (.sendResponse (some request) (prepare_response request))
        | some request =>
          match request.body_type with
          | none => none
          | some body_type =>
            if body_type = .contentLength then
              match request.content_length with
              | some (some length) =>
                if bytes.length > length then
                  some (.clientError (some request) .badRequest)
                else
                  let request := { request with body := request.body ++ bytes }
                  some (.sendResponse (some request) (serve_content request))
              | _ => none
            else if body_type = .transferEncodingChunked then
              match parse_chunked_body bytes with
              | .error _ => some (.clientError (some request) .badRequest)
              | .ok (body, is_complete) =>
                if !is_complete then
                  some (.read (some request))
                else
                  let request := { request with body := request.body ++ body }
                  some (.sendResponse (some request) (serve_content request))
            else none

/-- The `should_close` decision of
`HandleConnectionStateMachine::send_response` (src/server.rs):
`!self.persistent || self.served_requests_count == self.max_requests - 1 ||
request.as_ref().is_some_and(|r| r.has_header("Connection", Some("close")))`,
with the `u8` subtraction wrapped mod 256 (release semantics). -/
def send_response_should_close (sm : HandleConnectionStateMachine)
    (request : Option Request) : Bool :=
  !sm.persistent ||
    sm.served_requests_count == (sm.max_requests + 255) % 256 ||
    (match request with
     | some request => request.has_header (ascii "Connection") (some (ascii "close"))
     | none => false)

/-- `HandleConnectionStateMachine::send_response` (src/server.rs): apply the
rules when a request is present; decide should-close (`!persistent ||
served_requests_count == max_requests - 1 || request has Connection: close`,
with the `u8` subtraction wrapped mod 256); append `Connection: close` when
closing; write the serialized response (outcome `write_result`; on write
error the count is not incremented and the machine enters `error`); increment
the served count and go to `close` or `read None`. Returns the updated
machine, the next state, and the final response handed to
`connection.write`. -/
def HandleConnectionStateMachine.send_response
    (eval : Rule → Request → Response → RuleEvaluationResult) (rules : List Rule)
    (sm : HandleConnectionStateMachine)
    (request : Option Request) (response : Response)
    (write_result : Except IoErrorKind Unit) :
    HandleConnectionStateMachine × HandleConnectionState × Response :=
  let response :=
    match request with
    | some request => apply_rules eval rules request response
    | none => response
  let should_close := send_response_should_close sm request
  let response :=
    if should_close then response.set_header (ascii "Connection") (ascii "close")
    else response
  match write_result with
  | .error kind => (sm, .error kind, response)
  | .ok _ =>
    ({ sm with served_requests_count := (sm.served_requests_count + 1) % 256 },
     if should_close then .close else .read none,
     response)

/-- `HandleConnectionStateMachine::client_error` (src/server.rs): fabricate
an error response and move to `SendResponse`. -/
def HandleConnectionStateMachine.client_error
    (request : Option Request) (status_code : ResponseStatusCode) :
    HandleConnectionState :=
  .sendResponse request (error_response request status_code)

/-! ## Helper lemmas -/

/-- `eq_ignore_ascii_case` is reflexive. -/
theorem eq_ignore_ascii_case_refl (a : ByteStr) : eq_ignore_ascii_case a a = true := by
  simp [eq_ignore_ascii_case]

/-- `content_length` reads only the headers, so replacing the body leaves it
unchanged. -/
theorem content_length_body_update (r : Request) (b : ByteStr) :
    ({ r with body := b } : Request).content_length = r.content_length := rfl

/-- A `body_type` of `transferEncodingChunked` or `none_` forces
`content_length` to `some none`. -/
theorem content_length_of_body_type_not_cl (r : Request)
    (h : r.body_type = some .transferEncodingChunked ∨ r.body_type = some .none_) :
    r.content_length = some none := by
  unfold Request.body_type at h
  cases hcl : r.content_length with
  | none => rw [hcl] at h; rcases h with h | h <;> exact Option.noConfusion h
  | some cl =>
    cases cl with
    | none => rfl
    | some n =>
      rw [hcl] at h
      rcases h with h | h <;> simp at h

/-- Characterization of the request assembled by the body-framing block:
either the request declares a parsed Content-Length `n` and the completeness
flag is `body.length == n`, or `content_length` is `some none` (header absent
at lookup). -/
theorem parse_request_body_ok_characterization (request : Request) (rest2 : ByteStr)
    (r : Request) (c : Bool)
    (h : parse_request_body request rest2 = some (.ok (r, c))) :
    (∃ n, r.content_length = some (some n) ∧ c = (r.body.length == n)) ∨
      r.content_length = some none := by
  unfold parse_request_body at h
  split at h
  · simp at h
  · rename_i bt_eq
    simp only [] at h
    split at h
    · rename_i length cl_eq
      simp only [Option.some.injEq, Except.ok.injEq, Prod.mk.injEq] at h
      obtain ⟨hr, hc⟩ := h
      subst hr
      exact Or.inl ⟨length, cl_eq, hc.symm⟩
    · simp at h
  · rename_i bt_eq
    split at h
    · simp at h
    · simp only [Option.some.injEq, Except.ok.injEq, Prod.mk.injEq] at h
      obtain ⟨hr, _⟩ := h
      subst hr
      right
      rw [content_length_body_update]
      exact content_length_of_body_type_not_cl _ (Or.inl bt_eq)
  · rename_i bt_eq
    simp only [Option.some.injEq, Except.ok.injEq, Prod.mk.injEq] at h
    obtain ⟨hr, _⟩ := h
    subst hr
    right
    exact content_length_of_body_type_not_cl _ (Or.inr bt_eq)

/-- A successful `parse_request` is a successful body framing of the request
assembled from the parsed request line and headers. -/
theorem parse_request_ok_elim (bytes : ByteStr) (r : Request) (c : Bool)
    (h : parse_request bytes = some (.ok (r, c))) :
    ∃ request rest2, parse_request_body request rest2 = some (.ok (r, c)) := by
  unfold parse_request at h
  split at h
  · simp at h
  · simp at h
  · split at h
    · simp at h
    · exact ⟨_, _, h⟩

/-! ## Claim C1 — chunk sizes -/

/-- Claim C1 (code bug, evaluation at the failing input): the claim and the
spec say the chunk size prefix is hexadecimal, so that `a\r\n` followed by
ten payload bytes is a valid chunk and `10\r\n` declares sixteen bytes. The
code parses the size with the decimal `str::parse::<usize>`: the size digit
`a` is rejected as unparseable, a chunk declaring `10` with sixteen payload
bytes is rejected as a length mismatch, and `10` followed by exactly ten
bytes is accepted. -/
theorem c1_chunk_size_parsed_as_decimal_not_hex :
    parse_chunked_body (ascii "a\r\n0123456789\r\n0\r\n\r\n") = .error ()
    ∧ parse_chunked_body (ascii "10\r\n0123456789abcdef\r\n0\r\n\r\n") = .error ()
    ∧ parse_chunked_body (ascii "10\r\n0123456789\r\n0\r\n\r\n")
        = .ok (ascii "0123456789", true) :=
  ⟨rfl, rfl, rfl⟩

/-! ## Claim C2 — duplicate header insertion -/

/-- Claim C2 (counterexample): after `add("a", "1")` then `add("a", "2")`,
the claim demands a single entry holding value `2`; the code instead keeps
two entries and a lookup returns `1`, because `Headers::add` looks up the
existing entry by name AND value, not by name alone. -/
theorem c2_duplicate_add_does_not_overwrite :
    ((Headers.new.add (ascii "a") (ascii "1")).add (ascii "a") (ascii "2")).get (ascii "a")
        = some (ascii "1")
    ∧ (((Headers.new.add (ascii "a") (ascii "1")).add (ascii "a") (ascii "2")).inner).length
        = 2 :=
  ⟨rfl, rfl⟩

/-- Claim C2 (amended): `Headers::add` replaces an entry only when both the
name and the value match case-insensitively; a second value for an existing
name that is not case-insensitively equal to the stored one is appended as an
additional entry, and a lookup of the name still returns the first value. -/
theorem c2_add_with_distinct_value_appends (name v1 v2 : ByteStr)
    (h : eq_ignore_ascii_case v2 v1 = false) :
    ((Headers.new.add name v1).add name v2).inner = [(name, v1), (name, v2)]
    ∧ ((Headers.new.add name v1).add name v2).get name = some v1 := by
  have hadd : (Headers.new.add name v1).add name v2 = ⟨[(name, v1), (name, v2)]⟩ := by
    simp [Headers.add, Headers.new, Headers.has_inner, has_inner_aux,
      eq_ignore_ascii_case_refl, h]
  refine ⟨by rw [hadd], ?_⟩
  rw [hadd]
  simp [Headers.get, Headers.has_inner, has_inner_aux, eq_ignore_ascii_case_refl]

/-- Claim C2 (witness): the amended statement applied at name `b`, values
`x` then `y`. -/
theorem c2_add_with_distinct_value_appends_witness :
    ((Headers.new.add (ascii "b") (ascii "x")).add (ascii "b") (ascii "y")).inner
        = [(ascii "b", ascii "x"), (ascii "b", ascii "y")]
    ∧ ((Headers.new.add (ascii "b") (ascii "x")).add (ascii "b") (ascii "y")).get (ascii "b")
        = some (ascii "x") :=
  c2_add_with_distinct_value_appends (ascii "b") (ascii "x") (ascii "y") (by decide)

/-! ## Claim C3 — Content-Length invariant -/

/-- Claim C3 (counterexample): on `POST / HTTP/1.1` with `Content-Length: 3`
followed by only two body bytes, `parse_request` returns `Ok` (with
complete = false) and a request whose declared Content-Length is 3 while its
body holds 2 bytes, refuting the claim's "regardless of the returned
completeness flag". -/
theorem c3_ok_incomplete_body_shorter_than_content_length :
    (parse_request (ascii "POST / HTTP/1.1\r\nContent-Length: 3\r\n\r\n12")).map
        (Except.map (fun p => (p.1.content_length, p.1.body.length, p.2)))
      = some (.ok (some (some 3), 2, false))
    ∧ (2 : Nat) ≠ 3 :=
  ⟨rfl, by decide⟩

/-- Claim C3 (amended): for every byte slice on which `parse_request` returns
`Ok` with request `r`, if `r` carries a Content-Length header with parsed
value `n`, then the returned completeness flag is true exactly when the
length of `r.body` equals `n`. -/
theorem c3_body_length_matches_content_length_iff_complete (bytes : ByteStr)
    (r : Request) (c : Bool) (n : Nat)
    (hparse : parse_request bytes = some (.ok (r, c)))
    (hcl : r.content_length = some (some n)) :
    c = true ↔ r.body.length = n := by
  obtain ⟨request, rest2, hbody⟩ := parse_request_ok_elim bytes r c hparse
  rcases parse_request_body_ok_characterization request rest2 r c hbody with
    ⟨m, hm, hc⟩ | hnone
  · rw [hm] at hcl
    have hmn : m = n := by
      have := Option.some.inj hcl
      exact Option.some.inj this
    subst hmn
    subst hc
    simp
  · rw [hnone] at hcl
    simp at hcl

/-- Claim C3 (witness): a complete POST with `Content-Length: 3` and a
three-byte body. -/
def c3_witness_input : ByteStr := ascii "POST / HTTP/1.1\r\nContent-Length: 3\r\n\r\n123"

/-- The request value `parse_request` produces on `c3_witness_input`. -/
def c3_witness_request : Request :=
  { method := .post, url := ascii "/", version := .http1_1,
    headers := ⟨[(ascii "Content-Length", ascii "3")]⟩, body := ascii "123" }

/-- Claim C3 (witness): the amended statement applied to the concrete
complete request: it parses to `Ok` with complete = true, declares
Content-Length 3, and the equivalence instantiates to a body of length 3. -/
theorem c3_body_length_matches_content_length_iff_complete_witness :
    parse_request c3_witness_input = some (.ok (c3_witness_request, true))
    ∧ c3_witness_request.content_length = some (some 3)
    ∧ (true = true ↔ c3_witness_request.body.length = 3) :=
  ⟨rfl, rfl,
    c3_body_length_matches_content_length_iff_complete c3_witness_input
      c3_witness_request true 3 rfl rfl⟩

/-! ## Claim C10 — content_length never panics on parser output -/

/-- Claim C10: for every request value produced by a successful
`parse_request`, calling `content_length` never panics (the `unwrap` inside
it is unreachable): the embedded `content_length` returns `some _` rather
than the panic marker `none`. (The guard is the parser itself: `body_type`
evaluates `content_length` during `parse_request`, so an input whose
looked-up Content-Length value does not parse makes `parse_request` panic
and produce no request at all.) -/
theorem c10_content_length_never_panics_on_parser_output (bytes : ByteStr)
    (r : Request) (c : Bool)
    (h : parse_request bytes = some (.ok (r, c))) :
    (r.content_length).isSome = true := by
  obtain ⟨request, rest2, hbody⟩ := parse_request_ok_elim bytes r c h
  rcases parse_request_body_ok_characterization request rest2 r c hbody with
    ⟨n, hn, _⟩ | hnone
  · rw [hn]; rfl
  · rw [hnone]; rfl

/-- The request value `parse_request` produces on the C10 witness input. -/
def c10_witness_request : Request :=
  { method := .post, url := ascii "/", version := .http1_1,
    headers := ⟨[(ascii "Content-Length", ascii "2")]⟩, body := ascii "ab" }

/-- Claim C10 (witness): the theorem applied to a concrete POST with
`Content-Length: 2`. -/
theorem c10_content_length_never_panics_on_parser_output_witness :
    (c10_witness_request.content_length).isSome = true :=
  c10_content_length_never_panics_on_parser_output
    (ascii "POST / HTTP/1.1\r\nContent-Length: 2\r\n\r\nab") c10_witness_request true rfl

/-! ## Claim C9 — rule matching -/

/-- `str_contains` decides exactly the contiguous-substring (infix)
relation. -/
theorem str_contains_iff_substring (s pat : ByteStr) :
    str_contains s pat = true ↔ List.IsInfix pat s := by
  unfold str_contains
  rw [List.any_eq_true]
  constructor
  · rintro ⟨i, _, hp⟩
    rw [List.isPrefixOf_iff_prefix] at hp
    obtain ⟨t, ht⟩ := hp
    exact ⟨s.take i, t, by rw [List.append_assoc, ht, List.take_append_drop]⟩
  · rintro ⟨u, t, hut⟩
    refine ⟨u.length, ?_, ?_⟩
    · rw [List.mem_range]
      have hle : u.length ≤ s.length := by
        rw [← hut]
        simp [List.length_append]
      omega
    · rw [List.isPrefixOf_iff_prefix]
      refine ⟨t, ?_⟩
      rw [← hut, List.append_assoc, List.drop_left]

/-- Claim C9: a rule applies exactly when its pattern occurs as a contiguous
substring of the request url, and a rule with the empty pattern matches every
url. -/
theorem c9_rule_matches_iff_pattern_substring (rule : Rule) (url : ByteStr) :
    (rule.matches url = true ↔ List.IsInfix rule.pattern url)
    ∧ (rule.pattern = [] → rule.matches url = true) := by
  refine ⟨str_contains_iff_substring url rule.pattern, fun h => ?_⟩
  exact (str_contains_iff_substring url rule.pattern).mpr
    (by rw [h]; exact List.nil_infix)

/-- Claim C9 (witness): a rule with the empty pattern matches the concrete
url `/index.html`. -/
theorem c9_rule_matches_iff_pattern_substring_witness :
    (Rule.mk []).matches (ascii "/index.html") = true :=
  (c9_rule_matches_iff_pattern_substring ⟨[]⟩ (ascii "/index.html")).2 rfl

/-! ## Hash-map helper lemmas -/

/-- A hypothesis of the shape `¬(b = true)` as a `Bool` equation. -/
theorem bool_not_true {b : Bool} (h : ¬(b = true)) : b = false := by
  cases b
  · rfl
  · exact absurd rfl h

/-- `get` on a non-empty association list: the head decides when its key
matches. -/
theorem hash_map_get_cons (p : ByteStr × ByteStr) (t : List (ByteStr × ByteStr))
    (k : ByteStr) :
    hash_map_get (p :: t) k = if p.1 == k then some p.2 else hash_map_get t k := by
  by_cases hp : (p.1 == k) = true
  · simp [hash_map_get, List.find?_cons, hp]
  · simp [hash_map_get, List.find?_cons, bool_not_true hp]

/-- Replacing the value of a present key makes `get` return the new value. -/
theorem hash_map_get_replace (k v : ByteStr) :
    ∀ m : List (ByteStr × ByteStr), m.any (fun p => p.1 == k) = true →
      hash_map_get (m.map (fun p => if p.1 == k then (k, v) else p)) k = some v := by
  intro m
  induction m with
  | nil => intro h; simp at h
  | cons p t ih =>
    intro h
    rw [List.map_cons]
    by_cases hp : (p.1 == k) = true
    · rw [if_pos hp, hash_map_get_cons]
      simp
    · rw [if_neg hp, hash_map_get_cons, bool_not_true hp]
      have ht : t.any (fun q => q.1 == k) = true := by
        simpa [List.any_cons, bool_not_true hp] using h
      simpa using ih ht

/-- Appending a pair for an absent key makes `get` return its value. -/
theorem hash_map_get_append (k v : ByteStr) :
    ∀ m : List (ByteStr × ByteStr), m.any (fun p => p.1 == k) = false →
      hash_map_get (m ++ [(k, v)]) k = some v := by
  intro m
  induction m with
  | nil =>
    intro _
    rw [List.nil_append, hash_map_get_cons]
    simp
  | cons p t ih =>
    intro h
    rw [List.any_cons, Bool.or_eq_false_iff] at h
    rw [List.cons_append, hash_map_get_cons, h.1]
    simpa using ih h.2

/-- `get` after `insert` returns the inserted value. -/
theorem hash_map_get_insert (m : List (ByteStr × ByteStr)) (k v : ByteStr) :
    hash_map_get (hash_map_insert m k v) k = some v := by
  unfold hash_map_insert
  by_cases h : m.any (fun p => p.1 == k) = true
  · rw [if_pos h]
    exact hash_map_get_replace k v m h
  · rw [if_neg h]
    exact hash_map_get_append k v m (bool_not_true h)

/-- `contains_key` agrees with the definedness of `get`. -/
theorem hash_map_contains_key_eq_isSome (m : List (ByteStr × ByteStr)) (k : ByteStr) :
    hash_map_contains_key m k = (hash_map_get m k).isSome := by
  induction m with
  | nil => rfl
  | cons p t ih =>
    rw [hash_map_get_cons]
    by_cases hp : (p.1 == k) = true
    · simp [hash_map_contains_key, List.any_cons, hp]
    · have hpf := bool_not_true hp
      rw [hpf]
      simpa [hash_map_contains_key, List.any_cons, hpf] using ih

/-! ## Claim C7 — Content-Length on built responses -/

/-- Claim C7 (counterexample): a builder given an explicit
`Content-Length: 5` and then a three-byte body finalizes to a response whose
body is non-empty but whose Content-Length stays `5`, not the body length
`3`, refuting "including when a Content-Length header was already set
explicitly before finalization". -/
theorem c7_preset_content_length_kept_despite_body :
    (((ResponseBuilder.new.header (ascii "Content-Length") (ascii "5")).body
        (ascii "123")).get).body = ascii "123"
    ∧ hash_map_get
        ((((ResponseBuilder.new.header (ascii "Content-Length") (ascii "5")).body
          (ascii "123")).get).headers) (ascii "Content-Length") = some (ascii "5")
    ∧ nat_to_string (ascii "123").length = ascii "3"
    ∧ ascii "5" ≠ ascii "3" :=
  ⟨rfl, rfl, rfl, by decide⟩

/-- Claim C7 (amended): for every finalized response with a non-empty body, a
Content-Length header is present; its value equals the body length whenever
no Content-Length header was set before finalization, while a preexisting
Content-Length header is kept with the whole response unchanged. -/
theorem c7_nonempty_body_has_content_length (b : ResponseBuilder)
    (h : b.response.body ≠ []) :
    hash_map_contains_key (ResponseBuilder.get b).headers (ascii "Content-Length") = true
    ∧ (hash_map_contains_key b.response.headers (ascii "Content-Length") = false →
        hash_map_get (ResponseBuilder.get b).headers (ascii "Content-Length")
          = some (nat_to_string b.response.body.length))
    ∧ (hash_map_contains_key b.response.headers (ascii "Content-Length") = true →
        ResponseBuilder.get b = b.response) := by
  have hne : b.response.body.isEmpty = false := by
    cases hb : b.response.body with
    | nil => exact absurd hb h
    | cons a t => rfl
  by_cases hck : hash_map_contains_key b.response.headers (ascii "Content-Length") = true
  · have hget : ResponseBuilder.get b = b.response := by
      unfold ResponseBuilder.get
      rw [hne, hck]
      simp
    refine ⟨?_, fun hfalse => absurd hck (by simp [hfalse]), fun _ => hget⟩
    rw [hget]
    exact hck
  · have hckf : hash_map_contains_key b.response.headers (ascii "Content-Length") = false := by
      simpa using hck
    have hget : ResponseBuilder.get b
        = (b.header (ascii "Content-Length")
            (nat_to_string b.response.body.length)).response := by
      unfold ResponseBuilder.get
      rw [hne, hckf]
      simp
    refine ⟨?_, fun _ => ?_, fun htrue => absurd htrue hck⟩
    · rw [hget]
      show hash_map_contains_key
        (hash_map_insert b.response.headers (ascii "Content-Length")
          (nat_to_string b.response.body.length)) (ascii "Content-Length") = true
      rw [hash_map_contains_key_eq_isSome, hash_map_get_insert]
      rfl
    · rw [hget]
      exact hash_map_get_insert ..

/-- Claim C7 (witness): the amended statement applied to a builder holding
the three-byte body `abc` and no preset headers. -/
theorem c7_nonempty_body_has_content_length_witness :
    hash_map_contains_key ((ResponseBuilder.new.body (ascii "abc")).get).headers
        (ascii "Content-Length") = true
    ∧ (hash_map_contains_key (ResponseBuilder.new.body (ascii "abc")).response.headers
          (ascii "Content-Length") = false →
        hash_map_get ((ResponseBuilder.new.body (ascii "abc")).get).headers
            (ascii "Content-Length")
          = some (nat_to_string (ResponseBuilder.new.body (ascii "abc")).response.body.length))
    ∧ (hash_map_contains_key (ResponseBuilder.new.body (ascii "abc")).response.headers
          (ascii "Content-Length") = true →
        (ResponseBuilder.new.body (ascii "abc")).get
          = (ResponseBuilder.new.body (ascii "abc")).response) :=
  c7_nonempty_body_has_content_length (ResponseBuilder.new.body (ascii "abc")) (by decide)

/-! ## Claim C8 — error response body -/

/-- `ResponseBuilder::get` never changes the body (it only may add a
header). -/
theorem responseBuilder_get_body (b : ResponseBuilder) :
    (ResponseBuilder.get b).body = b.response.body := by
  unfold ResponseBuilder.get
  split <;> rfl

/-- The acceptance condition of claim C8, written from the claim's words:
the request exists and carries an `Accept` header whose value contains
`text/html`, `text/*` or `*/*`. -/
def accepts_html_spec (request : Option Request) : Bool :=
  match request with
  | some r =>
    match r.headers.get (ascii "Accept") with
    | some v =>
      str_contains v (ascii "text/html") || str_contains v (ascii "text/*") ||
        str_contains v (ascii "*/*")
    | none => false
  | none => false

/-- The body of `error_response` is the minimal HTML page exactly under the
acceptance condition, and empty otherwise. -/
theorem error_response_body_eq (request : Option Request) (sc : ResponseStatusCode) :
    (error_response request sc).body
      = (if accepts_html_spec request then error_html_body sc else []) := by
  unfold error_response accepts_html_spec
  cases request with
  | none =>
    simp [responseBuilder_get_body, ResponseBuilder.new, ResponseBuilder.status_code]
  | some r =>
    cases hg : r.headers.get (ascii "Accept") with
    | none =>
      simp [hg, responseBuilder_get_body, ResponseBuilder.new, ResponseBuilder.status_code]
    | some v =>
      by_cases hc : (str_contains v (ascii "text/html") || str_contains v (ascii "text/*") ||
          str_contains v (ascii "*/*")) = true
      · simp [hg, hc, responseBuilder_get_body, ResponseBuilder.new,
          ResponseBuilder.status_code, ResponseBuilder.header, ResponseBuilder.text_body]
      · simp [hg, bool_not_true hc, responseBuilder_get_body, ResponseBuilder.new,
          ResponseBuilder.status_code]

/-- The minimal HTML error page is never empty. -/
theorem error_html_body_ne_nil (sc : ResponseStatusCode) : error_html_body sc ≠ [] := by
  cases sc <;> decide

/-- The decimal status code occurs in the minimal HTML error page. -/
theorem error_html_body_infix_code (sc : ResponseStatusCode) :
    List.IsInfix (nat_to_string sc.as_u16) (error_html_body sc) :=
  ⟨ascii "<html><body><h1 style=" ++ [39] ++ ascii "text-align: center" ++ [39] ++
      ascii ">",
   ascii " " ++ sc.reason ++ ascii "</h1></body></html>",
   by simp [error_html_body, List.append_assoc]⟩

/-- The reason phrase occurs in the minimal HTML error page. -/
theorem error_html_body_infix_reason (sc : ResponseStatusCode) :
    List.IsInfix sc.reason (error_html_body sc) :=
  ⟨ascii "<html><body><h1 style=" ++ [39] ++ ascii "text-align: center" ++ [39] ++
      ascii ">" ++ nat_to_string sc.as_u16 ++ ascii " ",
   ascii "</h1></body></html>",
   by simp [error_html_body, List.append_assoc]⟩

/-- Claim C8: `error_response` carries a non-empty minimal HTML body
containing the status code and reason phrase exactly when the request has an
`Accept` header whose value contains `text/html`, `text/*` or `*/*`; in
every other case (including when no request is available) the body is
empty. -/
theorem c8_error_response_html_body_iff_accepts_html (request : Option Request)
    (status_code : ResponseStatusCode) :
    (((error_response request status_code).body ≠ []
        ∧ List.IsInfix (nat_to_string status_code.as_u16)
            (error_response request status_code).body
        ∧ List.IsInfix status_code.reason (error_response request status_code).body)
      ↔ accepts_html_spec request = true)
    ∧ (accepts_html_spec request = false →
        (error_response request status_code).body = []) := by
  have hbody := error_response_body_eq request status_code
  by_cases ha : accepts_html_spec request = true
  · rw [ha] at hbody
    simp only [if_pos] at hbody
    rw [hbody]
    refine ⟨?_, fun hf => absurd ha (by simp [hf])⟩
    simp only [ha, iff_true]
    exact ⟨error_html_body_ne_nil _, error_html_body_infix_code _,
      error_html_body_infix_reason _⟩
  · have haf := bool_not_true ha
    rw [haf] at hbody
    simp only [Bool.false_eq_true, if_neg, if_false] at hbody
    rw [hbody]
    simp [haf]

/-- Claim C8 (witness): with no request available, the error response body is
empty. -/
theorem c8_error_response_html_body_iff_accepts_html_witness :
    (error_response none ResponseStatusCode.notFound).body = [] :=
  (c8_error_response_html_body_iff_accepts_html none ResponseStatusCode.notFound).2 rfl

/-! ## Claims C4, C5, C6 — connection state machine -/

/-- An empty 200 response, used to instantiate the dispatcher oracles in
concrete state-machine runs. -/
def default_response : Response := ResponseBuilder.new.response

/-- On a successful write, `send_response` reaches `Close` exactly when the
`should_close` decision is true. -/
theorem send_response_ok_close_iff
    (eval : Rule → Request → Response → RuleEvaluationResult) (rules : List Rule)
    (sm : HandleConnectionStateMachine) (request : Option Request) (response : Response) :
    (HandleConnectionStateMachine.send_response eval rules sm request response
        (.ok ())).2.1 = .close
      ↔ send_response_should_close sm request = true := by
  unfold HandleConnectionStateMachine.send_response
  by_cases hsc : send_response_should_close sm request = true
  · simp [hsc]
  · simp [bool_not_true hsc]

/-- On a successful write, the response written by `send_response` is the
rules-transformed response, with `Connection: close` set exactly when the
`should_close` decision is true. -/
theorem send_response_ok_response
    (eval : Rule → Request → Response → RuleEvaluationResult) (rules : List Rule)
    (sm : HandleConnectionStateMachine) (request : Option Request) (response : Response) :
    (HandleConnectionStateMachine.send_response eval rules sm request response
        (.ok ())).2.2
      = (if send_response_should_close sm request then
          (match request with
           | some r => apply_rules eval rules r response
           | none => response).set_header (ascii "Connection") (ascii "close")
         else
          (match request with
           | some r => apply_rules eval rules r response
           | none => response)) := rfl

/-- The `should_close` decision holds exactly under the spec's disjunction —
keep-alive disabled, served count equal to the configured maximum minus one,
or a `Connection: close` request header — given the `u8` ranges and a
positive configured maximum whenever keep-alive is on. -/
theorem send_response_should_close_iff (sm : HandleConnectionStateMachine)
    (request : Option Request)
    (hp : sm.persistent = true → 1 ≤ sm.max_requests)
    (hm : sm.max_requests ≤ 255) (hc : sm.served_requests_count < 256) :
    send_response_should_close sm request = true
      ↔ (sm.persistent = false ∨ sm.served_requests_count = sm.max_requests - 1
          ∨ (∃ r, request = some r
              ∧ r.has_header (ascii "Connection") (some (ascii "close")) = true)) := by
  unfold send_response_should_close
  by_cases hper : sm.persistent = true
  · have h1 : 1 ≤ sm.max_requests := hp hper
    have hwrap : (sm.max_requests + 255) % 256 = sm.max_requests - 1 := by omega
    cases request with
    | none => simp [hper, hwrap]
    | some r => simp [hper, hwrap]
  · have hpf := bool_not_true hper
    simp [hpf]

/-- Claim C6: in `SendResponse` (with a successful write), the connection is
marked for closing (next state `Close`) exactly when keep-alive is disabled,
or the served count equals the configured maximum minus one, or the request
carries `Connection: close`; a `Connection: close` header is present on the
written response when closing, and the response is left exactly as the rule
pass produced it when not closing. -/
theorem c6_send_response_should_close_condition
    (eval : Rule → Request → Response → RuleEvaluationResult) (rules : List Rule)
    (sm : HandleConnectionStateMachine) (request : Option Request) (response : Response)
    (hp : sm.persistent = true → 1 ≤ sm.max_requests)
    (hm : sm.max_requests ≤ 255) (hc : sm.served_requests_count < 256) :
    ((HandleConnectionStateMachine.send_response eval rules sm request response
        (.ok ())).2.1 = .close
      ↔ (sm.persistent = false ∨ sm.served_requests_count = sm.max_requests - 1
          ∨ (∃ r, request = some r
              ∧ r.has_header (ascii "Connection") (some (ascii "close")) = true)))
    ∧ ((HandleConnectionStateMachine.send_response eval rules sm request response
          (.ok ())).2.1 = .close →
        hash_map_get
          (HandleConnectionStateMachine.send_response eval rules sm request response
            (.ok ())).2.2.headers (ascii "Connection") = some (ascii "close"))
    ∧ ((HandleConnectionStateMachine.send_response eval rules sm request response
          (.ok ())).2.1 ≠ .close →
        (HandleConnectionStateMachine.send_response eval rules sm request response
          (.ok ())).2.2
          = (match request with
             | some r => apply_rules eval rules r response
             | none => response)) := by
  refine ⟨(send_response_ok_close_iff eval rules sm request response).trans
    (send_response_should_close_iff sm request hp hm hc), fun hclose => ?_, fun hne => ?_⟩
  · have hsc := (send_response_ok_close_iff eval rules sm request response).mp hclose
    rw [send_response_ok_response, if_pos hsc]
    exact hash_map_get_insert ..
  · have hsc : send_response_should_close sm request = false := by
      by_cases hb : send_response_should_close sm request = true
      · exact absurd ((send_response_ok_close_iff eval rules sm request response).mpr hb) hne
      · exact bool_not_true hb
    rw [send_response_ok_response, hsc]
    simp

/-- Claim C6 (witness): a keep-alive connection with maximum 2 that has
served one request closes after the next response. -/
theorem c6_send_response_should_close_condition_witness :
    (HandleConnectionStateMachine.send_response (fun _ _ r => .continue_ r) []
        ⟨true, 2, 1⟩ none default_response (.ok ())).2.1 = .close :=
  (c6_send_response_should_close_condition (fun _ _ r => .continue_ r) []
      ⟨true, 2, 1⟩ none default_response (by decide) (by decide) (by decide)).1.mpr
    (Or.inr (Or.inl (by decide)))

/-- The request used in the C5 counterexample: a plain GET with no
headers. -/
def c5_request : Request :=
  { method := .get, url := ascii "/", version := .http1_1,
    headers := ⟨[]⟩, body := [] }

/-- Claim C5 (counterexample): on a keep-alive connection (max 5 requests, 0
served) a `ClientError(Some(req), 400)` fabricates the error response and
moves to `SendResponse`, but the following `send_response` step returns to
`Read(None)` instead of closing: should-close is not forced true. -/
theorem c5_client_error_does_not_force_close :
    HandleConnectionStateMachine.client_error (some c5_request) .badRequest
      = .sendResponse (some c5_request) (error_response (some c5_request) .badRequest)
    ∧ (HandleConnectionStateMachine.send_response (fun _ _ r => .continue_ r) []
        ⟨true, 5, 0⟩ (some c5_request) (error_response (some c5_request) .badRequest)
        (.ok ())).2.1 = .read none
    ∧ (HandleConnectionStateMachine.send_response (fun _ _ r => .continue_ r) []
        ⟨true, 5, 0⟩ (some c5_request) (error_response (some c5_request) .badRequest)
        (.ok ())).2.1 ≠ .close :=
  ⟨rfl, rfl, by decide⟩

/-- Claim C5 (amended): `ClientError` fabricates an error response and falls
into `SendResponse`, but should-close is not forced: the subsequent
`send_response` closes exactly under the ordinary rule — keep-alive disabled,
served count = maximum − 1, or a `Connection: close` request header — so the
connection can stay open after an error response. -/
theorem c5_client_error_then_ordinary_close_rule
    (eval : Rule → Request → Response → RuleEvaluationResult) (rules : List Rule)
    (sm : HandleConnectionStateMachine) (request : Option Request)
    (status_code : ResponseStatusCode)
    (hp : sm.persistent = true → 1 ≤ sm.max_requests)
    (hm : sm.max_requests ≤ 255) (hc : sm.served_requests_count < 256) :
    HandleConnectionStateMachine.client_error request status_code
      = .sendResponse request (error_response request status_code)
    ∧ ((HandleConnectionStateMachine.send_response eval rules sm request
          (error_response request status_code) (.ok ())).2.1 = .close
        ↔ (sm.persistent = false ∨ sm.served_requests_count = sm.max_requests - 1
            ∨ (∃ r, request = some r
                ∧ r.has_header (ascii "Connection") (some (ascii "close")) = true))) :=
  ⟨rfl, (send_response_ok_close_iff eval rules sm request
      (error_response request status_code)).trans
    (send_response_should_close_iff sm request hp hm hc)⟩

/-- Claim C5 (witness): the amended statement applied to a timeout error on a
keep-alive connection with maximum 1: the error response is fabricated and
the connection closes because the served count equals the maximum minus
one. -/
theorem c5_client_error_then_ordinary_close_rule_witness :
    HandleConnectionStateMachine.client_error none .requestTimeout
      = .sendResponse none (error_response none .requestTimeout)
    ∧ ((HandleConnectionStateMachine.send_response (fun _ _ r => .continue_ r) []
          ⟨true, 1, 0⟩ none (error_response none .requestTimeout) (.ok ())).2.1 = .close
        ↔ (true = false ∨ 0 = 1 - 1
            ∨ (∃ r, (none : Option Request) = some r
                ∧ r.has_header (ascii "Connection") (some (ascii "close")) = true))) :=
  c5_client_error_then_ordinary_close_rule (fun _ _ r => .continue_ r) []
    ⟨true, 1, 0⟩ none .requestTimeout (by decide) (by decide) (by decide)

/-- The partially-read request of the C4 counterexample: declared
Content-Length 2, one body byte already accumulated. -/
def c4_request : Request :=
  { method := .post, url := ascii "/", version := .http1_1,
    headers := ⟨[(ascii "Content-Length", ascii "2")]⟩, body := ascii "a" }

/-- Claim C4 (counterexample): in `Read(Some(req))` with Content-Length 2 and
one body byte already read, a continuation read of two bytes makes the
accumulated body three bytes long — beyond the declared Content-Length — yet
the machine moves to `SendResponse` with the over-long body instead of
`ClientError(Some(req), 400)`, because the code compares only the new bytes
against the full Content-Length. -/
theorem c4_overread_not_detected_when_accumulated_exceeds :
    c4_request.body.length + (ascii "bc").length > 2
    ∧ HandleConnectionStateMachine.read (fun _ => default_response)
        (fun _ => default_response) (.ok (ascii "bc")) (some c4_request)
      = some (.sendResponse (some { c4_request with body := ascii "abc" })
          default_response)
    ∧ HandleConnectionStateMachine.read (fun _ => default_response)
        (fun _ => default_response) (.ok (ascii "bc")) (some c4_request)
      ≠ some (.clientError (some c4_request) .badRequest) :=
  ⟨by decide, rfl, by decide⟩

/-- Claim C4 (amended): in `Read(Some(req))` for a request with a parsed
Content-Length `n` and a non-empty continuation read, the machine enters
`ClientError(Some(req), 400)` exactly when the byte count of that single read
alone exceeds `n`; reads that only make the accumulated body exceed `n` are
appended and answered with a success response. -/
theorem c4_overread_check_compares_single_read_to_content_length
    (prepare_response serve_content : Request → Response) (request : Request)
    (bytes : ByteStr) (n : Nat)
    (hb : bytes ≠ [])
    (hcl : request.content_length = some (some n)) :
    HandleConnectionStateMachine.read prepare_response serve_content (.ok bytes)
        (some request)
      = some (.clientError (some request) .badRequest)
    ↔ bytes.length > n := by
  have hbt : request.body_type = some .contentLength := by
    unfold Request.body_type
    rw [hcl]
  have hbe : bytes.isEmpty = false := by
    cases bytes with
    | nil => exact absurd rfl hb
    | cons a t => rfl
  unfold HandleConnectionStateMachine.read
  simp only [hbt, hcl, hbe]
  by_cases hgt : bytes.length > n <;> simp [hgt]

/-- The partially-read request of the C4 witness: declared Content-Length 1,
empty body so far. -/
def c4_witness_request : Request :=
  { method := .post, url := ascii "/", version := .http1_1,
    headers := ⟨[(ascii "Content-Length", ascii "1")]⟩, body := [] }

/-- Claim C4 (witness): the amended statement applied to a two-byte
continuation read against Content-Length 1. -/
theorem c4_overread_check_compares_single_read_to_content_length_witness :
    (HandleConnectionStateMachine.read (fun _ => default_response)
        (fun _ => default_response) (.ok (ascii "xy")) (some c4_witness_request)
      = some (.clientError (some c4_witness_request) .badRequest))
    ↔ (ascii "xy").length > 1 :=
  c4_overread_check_compares_single_read_to_content_length
    (fun _ => default_response) (fun _ => default_response) c4_witness_request
    (ascii "xy") 1 (by decide) rfl

end HttpRs
